import Mathlib

/-!
Verification development for the Aethelgard: Event Horizon combat/control core.

The JavaScript source is shallowly embedded: JS numbers are modelled as
rationals (`ℚ`), nullable references as `Option`, and per-frame mutation as
explicit state passing.  Purely visual bookkeeping (meshes, materials,
particle animations, sounds, DOM) is omitted; every definition's doc comment
names the source function it embeds and what was left out.
-/

namespace Aethelgard

/-- JS `Math.min` on rationals, written with an explicit comparison so that
concrete terms reduce by `decide`; equal to Mathlib's `min` by `qmin_eq`. -/
def qmin (a b : ℚ) : ℚ := if a ≤ b then a else b

/-- JS `Math.max` on rationals, written with an explicit comparison so that
concrete terms reduce by `decide`; equal to Mathlib's `max` by `qmax_eq`. -/
def qmax (a b : ℚ) : ℚ := if a ≤ b then b else a

theorem qmin_eq (a b : ℚ) : qmin a b = min a b := by
  rw [qmin, min_def]

theorem qmax_eq (a b : ℚ) : qmax a b = max a b := by
  rw [qmax, max_def]

/-- Clamp a rational to the interval from 0 to 1; embeds the JS idiom
`Math.max(0, Math.min(1, x))` used in `HandTracker.updateAimPosition`. -/
def clamp01 (x : ℚ) : ℚ := qmax 0 (qmin 1 x)

/-- The discrete gesture symbols of `handTracking.js` (string constants in
the source). -/
inductive Gesture where
  | IDLE | THRUST | BRAKE | AIM
  | FIRE_PRIMARY | FIRE_SECONDARY
  | BARREL_ROLL | BOOST | SHIELD
  deriving DecidableEq, Repr

/-- The fields of the per-hand record returned by `HandTracker.analyzeHand`
that are read by `detectGesture` and `updateAimPosition`: the palm centre and
index-tip coordinates (normalised image space) and the derived boolean
features.  The raw 21 landmarks and the remaining derived features
(`palmSize`, `pinchDistance`, per-finger flags, `pointDirection`) are not
read by the embedded functions and are omitted. -/
structure HandData where
  palmCenterX : ℚ
  palmCenterY : ℚ
  indexTipX : ℚ
  indexTipY : ℚ
  isPinching : Bool
  isFist : Bool
  isOpenPalm : Bool
  isPointing : Bool
  deriving DecidableEq, Repr

/-- Two-hand branch of `HandTracker.detectGesture` (both hands present):
returns `some g` when one of the three two-hand conditions matches, mirroring
the early `return`s of the source; `none` means fall through to the
single-hand branches. -/
def twoHandGesture (l r : HandData) : Option Gesture :=
  let handDistance := |l.palmCenterX - r.palmCenterX|
  if handDistance > 0.4 ∧ l.isOpenPalm ∧ r.isOpenPalm then some Gesture.BARREL_ROLL
  else if handDistance < 0.3 ∧ l.isOpenPalm ∧ r.isOpenPalm then some Gesture.BOOST
  else if handDistance < 0.2 ∧ l.isFist ∧ r.isFist then some Gesture.SHIELD
  else none

/-- Right-hand branch of `HandTracker.detectGesture`:
pinch, fist, open palm, pointing - in the source's priority order. -/
def rightHandGesture (r : HandData) : Option Gesture :=
  if r.isPinching then some Gesture.FIRE_PRIMARY
  else if r.isFist then some Gesture.BRAKE
  else if r.isOpenPalm then some Gesture.THRUST
  else if r.isPointing then some Gesture.AIM
  else none

/-- Left-hand branch of `HandTracker.detectGesture`: pinch fires the
secondary weapon. -/
def leftHandGesture (l : HandData) : Option Gesture :=
  if l.isPinching then some Gesture.FIRE_SECONDARY
  else none

/-- Embeds `HandTracker.detectGesture`.  Input: the two optional hands and
the gesture of the previous frame (the source's `this.currentGesture`, which
it copies into `this.previousGesture` on entry).  Output: the new
`currentGesture` together with whether the `onGestureChange` callback was
invoked this frame (the callback is assumed installed, as `game.js` does).

Faithful to the source's control flow: each matched gesture branch ends in an
early `return`, so the change-notification check at the bottom of the
function is only reached on the fall-through path that assigns `IDLE`. -/
def detectGesture (leftHand rightHand : Option HandData) (current : Gesture) :
    Gesture × Bool :=
  let prev := current
  let twoHand := match leftHand, rightHand with
    | some l, some r => twoHandGesture l r
    | _, _ => none
  match twoHand with
  | some g => (g, false)
  | none =>
    match rightHand.bind rightHandGesture with
    | some g => (g, false)
    | none =>
      match leftHand.bind leftHandGesture with
      | some g => (g, false)
      | none => (Gesture.IDLE, decide (Gesture.IDLE ≠ prev))

/-- The aim-smoothing state of `HandTracker`: the raw `aimPosition` and the
`smoothAimPosition`, both initialised to (0.5, 0.5). -/
structure AimState where
  aimX : ℚ
  aimY : ℚ
  smoothX : ℚ
  smoothY : ℚ
  deriving DecidableEq, Repr

/-- The raw aim target `HandTracker.updateAimPosition` derives from a right
hand: the index-tip when pointing, otherwise the palm centre, with the x
coordinate mirrored (`1 - x`). -/
def aimTarget (h : HandData) : ℚ × ℚ :=
  if h.isPointing then (1 - h.indexTipX, h.indexTipY)
  else (1 - h.palmCenterX, h.palmCenterY)

/-- The source's `this.smoothingFactor` (0.5). -/
def smoothingFactor : ℚ := 0.5

/-- Embeds `HandTracker.updateAimPosition`: when a right hand is present the
raw aim position is set from it; then the smoothed position moves toward the
raw position by the blend factor and is clamped to the unit interval in each
coordinate. -/
def updateAimPosition (rightHand : Option HandData) (s : AimState) : AimState :=
  let s1 := match rightHand with
    | some h =>
      let t := aimTarget h
      { s with aimX := t.1, aimY := t.2 }
    | none => s
  let sx := s1.smoothX + (s1.aimX - s1.smoothX) * smoothingFactor
  let sy := s1.smoothY + (s1.aimY - s1.smoothY) * smoothingFactor
  { s1 with smoothX := clamp01 sx, smoothY := clamp01 sy }

/-! ### Ship controller (`src/js/ship/aurelian.js`) -/

/-- The ship's resource/status state from the `Aurelian` constructor.  The
max values are the constructor constants (all 100) and are kept as the
definitions `maxHull`, `maxShield`, `maxEnergy` below since the source never
reassigns them.  Movement state (position, velocity, rotation), mesh/trail
data and the transient `isThrusting`/`isBraking`/`isBoosting` frame flags are
omitted: none of the embedded resource operations read them. -/
structure ShipState where
  hull : ℚ
  shield : ℚ
  energy : ℚ
  isInvulnerable : Bool
  shieldActive : Bool
  deriving DecidableEq, Repr

/-- Constructor constant `this.maxHull = 100`. -/
def maxHull : ℚ := 100

/-- Constructor constant `this.maxShield = 100`. -/
def maxShield : ℚ := 100

/-- Constructor constant `this.maxEnergy = 100`. -/
def maxEnergy : ℚ := 100

/-- Constructor constant `this.energyRegen = 10` (per second). -/
def energyRegen : ℚ := 10

/-- The fresh ship of the `Aurelian` constructor (also restored by
`Game.startGame`). -/
def ShipState.mk0 : ShipState :=
  { hull := 100, shield := 100, energy := 100
    isInvulnerable := false, shieldActive := false }

/-- Embeds `Aurelian.boost` restricted to its resource effect: the energy
drain `this.energy -= 30 * dt`.  The velocity change and speed clamp are
movement state and are omitted. -/
def ShipState.boost (s : ShipState) (dt : ℚ) : ShipState :=
  { s with energy := s.energy - 30 * dt }

/-- Embeds `Aurelian.barrelRoll` up to the start of the roll: an early return
when already invulnerable or when energy is below 20, otherwise the
invulnerable flag is set and 20 energy is consumed.  The rotation animation
it schedules is modelled separately by `ShipState.barrelRollAnimate`. -/
def ShipState.barrelRoll (s : ShipState) : ShipState :=
  if s.isInvulnerable then s
  else if s.energy < 20 then s
  else { s with isInvulnerable := true, energy := s.energy - 20 }

/-- The fixed `duration = 500` (milliseconds) inside `Aurelian.barrelRoll`. -/
def barrelRollDuration : ℚ := 500

/-- Embeds the animation callback scheduled by `Aurelian.barrelRoll` at a
given elapsed wall-clock time since the roll started: while
`progress = min(elapsed/duration, 1)` is below 1 the roll only animates the
mesh; once `elapsed ≥ duration` the invulnerable flag is cleared (and the
mesh rotation restored, which is omitted). -/
def ShipState.barrelRollAnimate (s : ShipState) (elapsed : ℚ) : ShipState :=
  if elapsed ≥ barrelRollDuration then { s with isInvulnerable := false } else s

/-- Embeds `Aurelian.activateShield` up to its resource effect: early return
when the shield is already active or when energy is below 10, otherwise the
shield-active flag is set.  The 100 ms drain interval it starts is modelled
by `ShipState.shieldDrainTick` and the 3 s auto-deactivation timeout by
`ShipState.deactivateShield`. -/
def ShipState.activateShield (s : ShipState) : ShipState :=
  if s.shieldActive then s
  else if s.energy < 10 then s
  else { s with shieldActive := true }

/-- Embeds `Aurelian.deactivateShield`. -/
def ShipState.deactivateShield (s : ShipState) : ShipState :=
  { s with shieldActive := false }

/-- Embeds one 100 ms tick of the `setInterval` drain started by
`Aurelian.activateShield`: subtract 5 energy, then deactivate the shield
(and stop the interval) when energy has reached 0 or below. -/
def ShipState.shieldDrainTick (s : ShipState) : ShipState :=
  let s1 := { s with energy := s.energy - 5 }
  if s1.energy ≤ 0 then s1.deactivateShield else s1

/-- Embeds `Aurelian.processGesture` restricted to resource effects: `BOOST`
drains energy when energy exceeds 20, `BARREL_ROLL` starts a roll, `SHIELD`
activates the shield.  `THRUST`/`BRAKE` only touch movement state and the
transient frame flags, both omitted, so they leave the modelled state
unchanged. -/
def ShipState.processGesture (s : ShipState) (gesture : Gesture) (dt : ℚ) :
    ShipState :=
  match gesture with
  | Gesture.BOOST => if s.energy > 20 then s.boost dt else s
  | Gesture.BARREL_ROLL => s.barrelRoll
  | Gesture.SHIELD => s.activateShield
  | _ => s

/-- Embeds `Aurelian.update` restricted to resource effects, in source
order: process the gesture (with `dt = deltaTime * 0.001`), then regenerate
energy clamped at `maxEnergy`, then regenerate shield (5 per second, only
while below `maxShield`, clamped at `maxShield`).  Position/rotation
integration, mesh and trail updates are omitted. -/
def ShipState.update (s : ShipState) (gesture : Gesture) (deltaTime : ℚ) :
    ShipState :=
  let dt := deltaTime * 0.001
  let s1 := s.processGesture gesture dt
  let s2 := { s1 with energy := qmin maxEnergy (s1.energy + energyRegen * dt) }
  if s2.shield < maxShield then
    { s2 with shield := qmin maxShield (s2.shield + 5 * dt) }
  else s2

/-- Embeds `Aurelian.takeDamage`.  The JS function returns `undefined` on the
invulnerable early return and `this.hull <= 0` otherwise; the result is
modelled as `Option Bool` with `none` for `undefined` (which the callers in
`game.js` treat as falsy, i.e. no death).  The shield-hit visual, hull flash
and their timers are omitted. -/
def ShipState.takeDamage (s : ShipState) (amount : ℚ) :
    ShipState × Option Bool :=
  if s.isInvulnerable then (s, none)
  else
    let p1 :=
      if s.shield > 0 then
        let shieldDamage := qmin s.shield amount
        ({ s with shield := s.shield - shieldDamage }, amount - shieldDamage)
      else (s, amount)
    let s2 := if p1.2 > 0 then { p1.1 with hull := p1.1.hull - p1.2 } else p1.1
    (s2, some (decide (s2.hull ≤ 0)))

/-! ### Weapons (`src/js/ship/weapons.js`): energy drains seen by the ship -/

/-- Embeds the energy drain of one frame of `Weapons.updateBeam` while the
laser is active: `this.ship.energy -= weapon.energyCost * dt` with
`energyCost = 15` per second (the beam is toggled off afterwards when energy
reaches 0, which is weapon state; the geometry, raycast and enemy damage are
modelled with the weapon system below). -/
def ShipState.beamDrain (s : ShipState) (dt : ℚ) : ShipState :=
  { s with energy := s.energy - 15 * dt }

/-- The operations through which the game mutates the ship's resources: the
per-frame `Aurelian.update` with an arbitrary gesture and delta time, the
shield drain interval tick, the shield 3 s timeout, the barrel-roll animation
end, and the beam's per-frame energy drain from `Weapons.updateBeam`. -/
inductive ShipOp where
  | update (gesture : Gesture) (deltaTime : ℚ)
  | shieldDrainTick
  | shieldTimeout
  | barrelRollEnd
  | beamDrain (dt : ℚ)

/-- Apply one ship operation. -/
def ShipOp.apply (s : ShipState) : ShipOp → ShipState
  | ShipOp.update g deltaTime => s.update g deltaTime
  | ShipOp.shieldDrainTick => s.shieldDrainTick
  | ShipOp.shieldTimeout => s.deactivateShield
  | ShipOp.barrelRollEnd => s.barrelRollAnimate barrelRollDuration
  | ShipOp.beamDrain dt => s.beamDrain dt

/-- Run a sequence of ship operations. -/
def runShipOps (s : ShipState) (ops : List ShipOp) : ShipState :=
  ops.foldl ShipOp.apply s

/-- An operation's time argument is nonnegative (wall-clock deltas are). -/
def ShipOp.timeNonneg : ShipOp → Prop
  | ShipOp.update _ deltaTime => 0 ≤ deltaTime
  | ShipOp.beamDrain dt => 0 ≤ dt
  | _ => True

/-! ### Weapon system state (`src/js/ship/weapons.js`) -/

/-- A 3D vector with rational coordinates (the THREE.Vector3 operations used
by the embedded code are coordinatewise). -/
structure Vec3 where
  x : ℚ
  y : ℚ
  z : ℚ
  deriving DecidableEq, Repr

/-- Coordinatewise vector addition (`Vector3.add`). -/
def Vec3.add (a b : Vec3) : Vec3 := ⟨a.x + b.x, a.y + b.y, a.z + b.z⟩

/-- Scalar multiplication (`Vector3.multiplyScalar`). -/
def Vec3.smul (c : ℚ) (a : Vec3) : Vec3 := ⟨c * a.x, c * a.y, c * a.z⟩

/-- Squared distance between two points.  The source compares
`a.distanceTo(b) < r`; for `r ≥ 0` this is equivalent to
`distSq a b < r^2`, which stays inside ℚ (the distance itself is a square
root). -/
def Vec3.distSq (a b : Vec3) : ℚ :=
  (a.x - b.x) ^ 2 + (a.y - b.y) ^ 2 + (a.z - b.z) ^ 2

/-- A mesh, reduced to the only field the embedded combat logic touches: its
world position. -/
structure Mesh where
  position : Vec3
  deriving DecidableEq, Repr

/-- The per-enemy wrapper produced by `WaveManager.getEnemies` for the weapon
system: the enemy's mesh reference and hit radius.  The `takeDamage` closure
it carries is modelled by `EnemyState.takeDamage` below. -/
structure EnemyRef where
  mesh : Option Mesh
  hitRadius : ℚ
  deriving DecidableEq, Repr

/-- The three weapon slots of `Weapons.constructor`. -/
inductive WeaponKind where
  | railgun | laser | harpoon
  deriving DecidableEq, Repr

/-- Weapon stat table from `Weapons.constructor`: cooldown per weapon. -/
def cooldownOf : WeaponKind → ℚ
  | WeaponKind.railgun => 200
  | WeaponKind.laser => 0
  | WeaponKind.harpoon => 3000

/-- Weapon stat table from `Weapons.constructor`: energy cost per weapon. -/
def energyCostOf : WeaponKind → ℚ
  | WeaponKind.railgun => 5
  | WeaponKind.laser => 15
  | WeaponKind.harpoon => 30

/-- A railgun projectile's `userData` (`Weapons.fireRailgun`): kinematics,
damage, lifetime and creation time; mesh details omitted. -/
structure RailgunShot where
  position : Vec3
  velocity : Vec3
  damage : ℚ
  lifetime : ℚ
  created : ℚ
  deriving DecidableEq, Repr

/-- A harpoon's `userData` (`Weapons.fireHarpoon`): kinematics, damage,
lifetime, creation time and the attachment state.  `attachedTo` holds the
`getEnemies` wrapper captured at attach time — a value in this model, an
object alias in the JS source.  Tether geometry and `originPosition` are
visual and omitted. -/
structure Harpoon where
  position : Vec3
  velocity : Vec3
  damage : ℚ
  lifetime : ℚ
  created : ℚ
  attached : Bool
  attachedTo : Option EnemyRef
  deriving DecidableEq, Repr

/-- The weapon-system state of `Weapons.constructor`: per-weapon cooldown
clocks (`lastFired`; the laser's starts out absent — the source never
initialises `laser.lastFired`, so it is `undefined` until the laser is first
fired through `firePrimary`), the laser-active flag, the selected weapon and
the live projectile lists.  Beam meshes and the scene are omitted. -/
structure WeaponsState where
  railgunLastFired : ℚ
  laserLastFired : Option ℚ
  harpoonLastFired : ℚ
  laserActive : Bool
  currentWeapon : WeaponKind
  projectiles : List RailgunShot
  harpoons : List Harpoon
  deriving DecidableEq, Repr

/-- The initial weapon system (railgun selected, clocks at 0 as in the
constructor's stat table, laser clock absent). -/
def WeaponsState.mk0 : WeaponsState :=
  { railgunLastFired := 0, laserLastFired := none, harpoonLastFired := 0
    laserActive := false, currentWeapon := WeaponKind.railgun
    projectiles := [], harpoons := [] }

/-- The `lastFired` clock of a weapon slot, `none` when the JS field is
`undefined`. -/
def WeaponsState.lastFiredOf (w : WeaponsState) : WeaponKind → Option ℚ
  | WeaponKind.railgun => some w.railgunLastFired
  | WeaponKind.laser => w.laserLastFired
  | WeaponKind.harpoon => some w.harpoonLastFired

/-- Set the `lastFired` clock of a weapon slot to `now`
(`weapon.lastFired = now` in `firePrimary`). -/
def WeaponsState.setLastFired (w : WeaponsState) (k : WeaponKind) (now : ℚ) :
    WeaponsState :=
  match k with
  | WeaponKind.railgun => { w with railgunLastFired := now }
  | WeaponKind.laser => { w with laserLastFired := some now }
  | WeaponKind.harpoon => { w with harpoonLastFired := now }

/-- The cooldown gate `now - weapon.lastFired < weapon.cooldown` of
`Weapons.firePrimary`.  When `lastFired` is `undefined` (laser, before its
first shot) the JS comparison is `NaN < cooldown`, which is false, so the
gate does not block. -/
def cooldownBlocked (w : WeaponsState) (now : ℚ) : Bool :=
  match w.lastFiredOf w.currentWeapon with
  | none => false
  | some t => decide (now - t < cooldownOf w.currentWeapon)

/-- The projectile built by `Weapons.fireRailgun`: spawned 50 units ahead of
the ship along its forward vector, velocity `forward * 2000`, damage 25,
lifetime 3000 ms.  Mesh construction and the muzzle flash are omitted. -/
def mkRailgunShot (now : ℚ) (shipPos forward : Vec3) : RailgunShot :=
  { position := shipPos.add (Vec3.smul 50 forward)
    velocity := Vec3.smul 2000 forward
    damage := 25, lifetime := 3000, created := now }

/-- The projectile built by `Weapons.fireHarpoon`: spawned 50 units ahead of
the ship, velocity `forward * 800`, damage 10, lifetime 5000 ms, initially
unattached.  Mesh and tether-line construction are omitted. -/
def mkHarpoon (now : ℚ) (shipPos forward : Vec3) : Harpoon :=
  { position := shipPos.add (Vec3.smul 50 forward)
    velocity := Vec3.smul 800 forward
    damage := 10, lifetime := 5000, created := now
    attached := false, attachedTo := none }

/-- Embeds `Weapons.firePrimary`.  Inputs: the weapon state, the ship's
current energy, the wall clock `now` (`performance.now()`), and the ship's
position and forward vector for projectile spawning.  Output: the new weapon
state, the new ship energy, and the returned success flag.

Source order: the cooldown gate, then the energy gate, each returning false
without any state change; otherwise the `switch` on the selected weapon
spawns a railgun or harpoon projectile (the `laser` slot has no case and
spawns nothing), then energy is deducted, `lastFired` is set to `now`, and
true is returned. -/
def firePrimary (w : WeaponsState) (energy now : ℚ) (shipPos forward : Vec3) :
    WeaponsState × ℚ × Bool :=
  if cooldownBlocked w now then (w, energy, false)
  else if energy < energyCostOf w.currentWeapon then (w, energy, false)
  else
    let w1 := match w.currentWeapon with
      | WeaponKind.railgun =>
        { w with projectiles := w.projectiles ++ [mkRailgunShot now shipPos forward] }
      | WeaponKind.harpoon =>
        { w with harpoons := w.harpoons ++ [mkHarpoon now shipPos forward] }
      | WeaponKind.laser => w
    (w1.setLastFired w.currentWeapon now, energy - energyCostOf w.currentWeapon, true)

/-- Embeds one iteration of the loop in `Weapons.updateHarpoons` for a single
harpoon.  Result `none` means the harpoon was removed (lifetime expired);
otherwise the new harpoon state is returned together with a flag recording
whether the attached branch read the attached enemy's mesh and pulled it
toward the ship this frame (`harpoon.position.copy(mesh.position)` followed
by `mesh.position.add(pullDirection * 100 * dt)`; the pull displacement lies
along a unit vector, whose length involves a square root, so the mutation of
the aliased mesh is recorded by the flag rather than recomputed).  The tether
line geometry update is visual and omitted.  Collision uses squared
distances, equivalent to the source's `distanceTo < hitRadius` for a
nonnegative radius.  On attach the enemy also takes the harpoon's damage
through its wrapper; the damage call is modelled at the wave-manager side by
`EnemyState.takeDamage`. -/
def updateHarpoonOne (hp : Harpoon) (dt now : ℚ) (enemies : List EnemyRef) :
    Option (Harpoon × Bool) :=
  if now - hp.created > hp.lifetime then none
  else if hp.attached = false then
    let moved := { hp with position := hp.position.add (Vec3.smul dt hp.velocity) }
    let hit := enemies.find? (fun e =>
      match e.mesh with
      | some m => decide (Vec3.distSq moved.position m.position < e.hitRadius ^ 2)
      | none => false)
    match hit with
    | some e => some ({ moved with attached := true, attachedTo := some e }, false)
    | none => some (moved, false)
  else
    match hp.attachedTo with
    | some r =>
      match r.mesh with
      | some m => some ({ hp with position := m.position }, true)
      | none => some (hp, false)
    | none => some (hp, false)

/-! ### Enemies (`src/js/combat/enemyAI.js`) and waves
(`src/js/combat/waveManager.js`) -/

/-- The `EnemyTypes` constants of `enemyAI.js`. -/
inductive EnemyType where
  | vanguard | hunter | coward
  deriving DecidableEq, Repr

/-- The `health` entry of the per-type stat table in `Enemy.initStats`. -/
def initialHealth : EnemyType → ℚ
  | EnemyType.vanguard => 80
  | EnemyType.hunter => 60
  | EnemyType.coward => 40

/-- An `Enemy` instance reduced to the fields the embedded wave/weapon logic
reads: its type, current health, and its mesh reference.  AI state, movement
state and the per-type stats other than health are omitted (the per-frame
`Enemy.update` only moves the enemy and animates visuals — it never changes
health, which is only mutated by `Enemy.takeDamage`). -/
structure EnemyState where
  type : EnemyType
  health : ℚ
  mesh : Option Mesh
  deriving DecidableEq, Repr

/-- Embeds `Enemy.takeDamage`: subtract the amount from health and signal
death iff the new health is ≤ 0.  The emissive flash is omitted. -/
def EnemyState.takeDamage (e : EnemyState) (amount : ℚ) : EnemyState × Bool :=
  let e1 := { e with health := e.health - amount }
  (e1, decide (e1.health ≤ 0))

/-- Embeds `Enemy.die`: it plays the explosion effect and removes the mesh
from the scene, but never clears the `this.mesh` field — the modelled enemy
state is unchanged. -/
def EnemyState.die (e : EnemyState) : EnemyState := e

/-- Embeds the constructor of `Enemy` restricted to the modelled fields: the
stat table sets the starting health and `createMesh` installs a mesh at the
spawn position (`hitRadius` is the constant 30). -/
def mkEnemy (t : EnemyType) (pos : Vec3) : EnemyState :=
  { type := t, health := initialHealth t, mesh := some (Mesh.mk pos) }

/-- A wave configuration (`WaveManager.generateWaveConfigs`): wave number,
spawn list, spawn delay, boss flag. -/
structure WaveConfig where
  wave : ℕ
  enemies : List EnemyType
  spawnDelay : ℚ
  bossWave : Bool
  deriving DecidableEq, Repr

/-- The per-enemy type draw of `WaveManager.generateNormalWaveEnemies`: one
`Math.random()` roll against the wave-dependent probability bands. -/
def normalTypeFor (wave : ℕ) (roll : ℚ) : EnemyType :=
  if wave < 3 then
    if roll < 0.7 then EnemyType.coward else EnemyType.hunter
  else if wave < 7 then
    if roll < 0.3 then EnemyType.coward
    else if roll < 0.7 then EnemyType.hunter
    else EnemyType.vanguard
  else
    if roll < 0.2 then EnemyType.coward
    else if roll < 0.5 then EnemyType.hunter
    else EnemyType.vanguard

/-- Embeds `WaveManager.generateNormalWaveEnemies`: `count` draws, the i-th
using the i-th value of the random-roll oracle (each `Math.random()` call is
modelled by one oracle value). -/
def generateNormalWaveEnemies (wave count : ℕ) (rolls : ℕ → ℚ) :
    List EnemyType :=
  (List.range count).map fun i => normalTypeFor wave (rolls i)

/-- Swap two positions of a list when both indices are in range, else leave
the list unchanged; helper for the Fisher-Yates shuffle in
`generateBossWaveEnemies`. -/
def listSwap {α : Type} (l : List α) (i j : ℕ) : List α :=
  match l.get? i, l.get? j with
  | some a, some b => (l.set i b).set j a
  | _, _ => l

/-- The Fisher-Yates shuffle at the end of
`WaveManager.generateBossWaveEnemies`: for i from `length - 1` down to 1,
swap position i with position `floor(roll_i * (i + 1))`. -/
def fisherYates {α : Type} (l : List α) (rolls : ℕ → ℚ) : List α :=
  ((List.range l.length).reverse).foldl
    (fun acc i => if 0 < i then listSwap acc i (Int.toNat ⌊rolls i * (i + 1)⌋) else acc)
    l

/-- Embeds `WaveManager.generateBossWaveEnemies`: `floor(count * 0.5)`
vanguards, `floor(count * 0.3)` hunters, the rest cowards, then shuffled.
The floors of `count * 0.5` and `count * 0.3` agree with the rational floors
for the exact constants (the IEEE-double artefacts of `0.3` do not change the
floor for any count ≤ 20 + 19 used here, and no theorem depends on them). -/
def generateBossWaveEnemies (count : ℕ) (rolls : ℕ → ℚ) : List EnemyType :=
  let vanguardCount := count / 2
  let hunterCount := 3 * count / 10
  let cowardCount := count - vanguardCount - hunterCount
  fisherYates
    (List.replicate vanguardCount EnemyType.vanguard ++
      List.replicate hunterCount EnemyType.hunter ++
      List.replicate cowardCount EnemyType.coward)
    rolls

/-- Embeds `WaveManager.generateWaveConfigs`: waves 1..20, base enemy count
`3 + floor(i * 0.8)` (equal to `3 + 4 * i / 5` in natural division for
i ≤ 20), spawn delay `max(500, 2000 - i * 75)`, every 5th wave a boss wave
using the boss composition, others the normal draw.  `rolls i` is the oracle
for the `Math.random()` calls made while building wave `i + 1`. -/
def generateWaveConfigs (rolls : ℕ → ℕ → ℚ) : List WaveConfig :=
  (List.range 20).map fun i0 =>
    let i := i0 + 1
    let baseCount := 3 + 4 * i / 5
    let boss := i % 5 = 0
    { wave := i
      enemies :=
        if boss then generateBossWaveEnemies baseCount (rolls i0)
        else generateNormalWaveEnemies i baseCount (rolls i0)
      spawnDelay := qmax 500 (2000 - i * 75)
      bossWave := boss }

/-- The wave-manager state from the `WaveManager` constructor.  The enemy
projectile list, the scene, the stats counter and the callbacks are omitted
(callback invocations are returned by `WMState.update` instead).
`enemiesToSpawn` is `none` until the first `startWave` assigns it (the JS
field is `undefined` in the constructor). -/
structure WMState where
  currentWave : ℕ
  enemiesRemaining : ℤ
  activeEnemies : List EnemyState
  enemiesToSpawn : Option (List EnemyType)
  spawnDelay : ℚ
  timeSinceLastSpawn : ℚ
  waveConfigs : List WaveConfig
  deriving DecidableEq, Repr

/-- The constructor state of `WaveManager`, with the given random-roll oracle
used by `generateWaveConfigs`. -/
def WMState.init (rolls : ℕ → ℕ → ℚ) : WMState :=
  { currentWave := 0, enemiesRemaining := 0, activeEnemies := []
    enemiesToSpawn := none, spawnDelay := 2000, timeSinceLastSpawn := 0
    waveConfigs := generateWaveConfigs rolls }

/-- The config lookup `this.waveConfigs[this.currentWave - 1]` of
`WaveManager.startWave`: out-of-range indices (including the index −1
reached when `currentWave = 0`) give `undefined`, i.e. `none`. -/
def configLookup (cfgs : List WaveConfig) (wave : ℕ) : Option WaveConfig :=
  if wave = 0 then none else cfgs.get? (wave - 1)

/-- Embeds `WaveManager.startWave`.  `waveNumber = none` is the JS default
`null` (advance to the next wave); otherwise the wave number is set.  When no
precomputed config exists, the endless-mode config is synthesized: the
normal-wave draw with count `5 + currentWave` and spawn delay 500.  Then the
wave state is reset, with `timeSinceLastSpawn` preloaded to the spawn delay
so the first enemy spawns immediately.  `rolls` is the oracle for the
`Math.random()` calls of the endless-mode draw. -/
def WMState.startWave (s : WMState) (waveNumber : Option ℕ) (rolls : ℕ → ℚ) :
    WMState :=
  let w := match waveNumber with
    | some n => n
    | none => s.currentWave + 1
  let config := match configLookup s.waveConfigs w with
    | some c => c
    | none =>
      { wave := w
        enemies := generateNormalWaveEnemies w (5 + w) rolls
        spawnDelay := 500
        bossWave := w % 5 = 0 }
  { s with
    currentWave := w
    enemiesRemaining := config.enemies.length
    enemiesToSpawn := some config.enemies
    spawnDelay := config.spawnDelay
    timeSinceLastSpawn := config.spawnDelay }

/-- Embeds `WaveManager.isWaveComplete`: remaining count ≤ 0 and the spawn
queue absent (`undefined`) or empty. -/
def WMState.isWaveComplete (s : WMState) : Bool :=
  decide (s.enemiesRemaining ≤ 0) &&
    (match s.enemiesToSpawn with
     | none => true
     | some q => q.isEmpty)

/-- The spawn phase of `WaveManager.update`: when the spawn queue exists and
is non-empty, advance the spawn clock by `deltaTime`; if it reaches the spawn
delay, shift one type off the queue and spawn it (`spawnPos` stands for the
randomized position `spawnEnemy` computes around the player; its sine/cosine
arithmetic is irrational and the claims do not depend on it, so the position
is supplied as an oracle). -/
def WMState.spawnPhase (s : WMState) (deltaTime : ℚ) (spawnPos : Vec3) :
    WMState :=
  match s.enemiesToSpawn with
  | some (t :: rest) =>
    let clock := s.timeSinceLastSpawn + deltaTime
    if clock ≥ s.spawnDelay then
      { s with
        activeEnemies := s.activeEnemies ++ [mkEnemy t spawnPos]
        enemiesToSpawn := some rest
        timeSinceLastSpawn := 0 }
    else { s with timeSinceLastSpawn := clock }
  | _ => s

/-- The death-processing phase of `WaveManager.update`: every active enemy
with health ≤ 0 dies (`Enemy.die` leaves the modelled state unchanged), is
removed from the roster and decrements the remaining count (each removal also
invokes `onEnemyKilled` and bumps `totalKills`; both are omitted). -/
def WMState.removalPhase (s : WMState) : WMState :=
  let dead := s.activeEnemies.filter fun e => decide (e.health ≤ 0)
  { s with
    activeEnemies := s.activeEnemies.filter fun e => !decide (e.health ≤ 0)
    enemiesRemaining := s.enemiesRemaining - dead.length }

/-- Embeds `WaveManager.update` restricted to the modelled state: the spawn
phase, then the per-enemy loop (movement is omitted; attack descriptors and
enemy projectiles are omitted; dead enemies are removed), then the
wave-completion check, which invokes `onWaveComplete(currentWave)` whenever
the completion condition holds — returned here as `some currentWave`
(assuming the callback installed, as `game.js` does). -/
def WMState.update (s : WMState) (deltaTime : ℚ) (spawnPos : Vec3) :
    WMState × Option ℕ :=
  let s1 := s.spawnPhase deltaTime spawnPos
  let s2 := s1.removalPhase
  (s2, if s2.isWaveComplete then some s2.currentWave else none)

/-- Embeds `WaveManager.getEnemies`: one wrapper per active enemy carrying
the enemy's mesh reference and hit radius (the constant 30 from the `Enemy`
constructor); the `takeDamage` closure is `EnemyState.takeDamage`. -/
def WMState.getEnemies (s : WMState) : List EnemyRef :=
  s.activeEnemies.map fun e => { mesh := e.mesh, hitRadius := 30 }

/-- The weapon side hitting every active enemy through the `getEnemies`
wrappers with the given damage (each wrapper's `takeDamage` closure calls
`Enemy.takeDamage` on its enemy). -/
def WMState.hitAll (s : WMState) (amount : ℚ) : WMState :=
  { s with activeEnemies := s.activeEnemies.map fun e => (e.takeDamage amount).1 }

/-! ### Theorems -/

/-- C4: for every non-invulnerable ship state (with nonnegative shield and
damage amount), `takeDamage` reduces shield by `min shield amount`, reduces
hull by the leftover, and reports death exactly when the resulting hull is
≤ 0. -/
theorem c4_takeDamage (s : ShipState) (amount : ℚ)
    (hinv : s.isInvulnerable = false) (hsh : 0 ≤ s.shield) (hamt : 0 ≤ amount) :
    (s.takeDamage amount).1.shield = s.shield - min s.shield amount ∧
    (s.takeDamage amount).1.hull = s.hull - (amount - min s.shield amount) ∧
    (s.takeDamage amount).2 = some (decide ((s.takeDamage amount).1.hull ≤ 0)) := by
  simp only [ShipState.takeDamage, hinv, Bool.false_eq_true, if_false]
  split_ifs with h1 h2 h3
  · exact ⟨rfl, rfl, trivial⟩
  · have hmin : amount - min s.shield amount = 0 :=
      le_antisymm (not_lt.mp h2) (by simp [min_le_right])
    refine ⟨rfl, ?_, trivial⟩
    simp only [hmin]; ring
  · have hz : s.shield = 0 := le_antisymm (not_lt.mp h1) hsh
    have hmin : min s.shield amount = 0 := by rw [hz]; exact min_eq_left hamt
    refine ⟨by rw [hmin]; ring, by rw [hmin]; ring, trivial⟩
  · have hz : s.shield = 0 := le_antisymm (not_lt.mp h1) hsh
    have hmin : min s.shield amount = 0 := by rw [hz]; exact min_eq_left hamt
    have ha : amount = 0 := le_antisymm (not_lt.mp h3) hamt
    refine ⟨by rw [hmin]; ring, by rw [hmin, ha]; ring, trivial⟩

/-- Witness for C4 at the two concrete examples of the claim. -/
theorem c4_takeDamage_witness :
    ((ShipState.takeDamage ⟨100, 30, 100, false, false⟩ 50).1.shield = 0 ∧
      (ShipState.takeDamage ⟨100, 30, 100, false, false⟩ 50).1.hull = 80 ∧
      (ShipState.takeDamage ⟨100, 30, 100, false, false⟩ 50).2 = some false) ∧
    ((ShipState.takeDamage ⟨10, 0, 100, false, false⟩ 50).1.hull = -40 ∧
      (ShipState.takeDamage ⟨10, 0, 100, false, false⟩ 50).2 = some true) := by
  have h1 := c4_takeDamage ⟨100, 30, 100, false, false⟩ 50 rfl (by norm_num) (by norm_num)
  have h2 := c4_takeDamage ⟨10, 0, 100, false, false⟩ 50 rfl (by norm_num) (by norm_num)
  refine ⟨⟨?_, ?_, ?_⟩, ?_, ?_⟩
  · rw [h1.1]; norm_num
  · rw [h1.2.1]; norm_num
  · rw [h1.2.2]; congr 1; rw [h1.2.1]; norm_num
  · rw [h2.2.1]; norm_num
  · rw [h2.2.2]; congr 1; rw [h2.2.1]; norm_num

/-- C5: a barrel roll starts only when the ship is not already invulnerable
and has at least 20 energy, consumes exactly 20 energy instantly and sets the
invulnerable flag; the animation leaves the flag set strictly before the
fixed 500 ms duration and clears it at the duration; `takeDamage` while the
flag is set leaves the whole state (hull and shield included) unchanged and
reports no death; after the window has expired `takeDamage` behaves exactly
as for a non-invulnerable ship. -/
theorem c5_barrelRoll :
    (∀ s : ShipState, s.isInvulnerable = true → s.barrelRoll = s) ∧
    (∀ s : ShipState, s.energy < 20 → s.barrelRoll = s) ∧
    (∀ s : ShipState, s.isInvulnerable = false → 20 ≤ s.energy →
      s.barrelRoll = { s with isInvulnerable := true, energy := s.energy - 20 }) ∧
    (∀ (s : ShipState) (e : ℚ), e < barrelRollDuration → s.barrelRollAnimate e = s) ∧
    (∀ (s : ShipState) (e : ℚ), barrelRollDuration ≤ e →
      s.barrelRollAnimate e = { s with isInvulnerable := false }) ∧
    (∀ (s : ShipState) (amount : ℚ), s.isInvulnerable = true →
      s.takeDamage amount = (s, none)) ∧
    (∀ (s : ShipState) (e amount : ℚ), barrelRollDuration ≤ e →
      (s.barrelRollAnimate e).takeDamage amount =
        ShipState.takeDamage { s with isInvulnerable := false } amount) := by
  refine ⟨?_, ?_, ?_, ?_, ?_, ?_, ?_⟩
  · intro s h; simp [ShipState.barrelRoll, h]
  · intro s h
    by_cases hi : s.isInvulnerable <;> simp [ShipState.barrelRoll, h, hi]
  · intro s hi he
    simp [ShipState.barrelRoll, hi, not_lt.mpr he]
  · intro s e h; simp [ShipState.barrelRollAnimate, not_le.mpr h]
  · intro s e h; simp [ShipState.barrelRollAnimate, h]
  · intro s amount h; simp [ShipState.takeDamage, h]
  · intro s e amount h; simp [ShipState.barrelRollAnimate, h]

/-- Witness for C5: a fresh ship starts a roll, consuming 20 energy and
becoming invulnerable; damage in that state is ignored; at 500 ms the flag
clears; a low-energy ship cannot start a roll. -/
theorem c5_barrelRoll_witness :
    (ShipState.barrelRoll ⟨100, 100, 100, false, false⟩ =
      ⟨100, 100, 80, true, false⟩) ∧
    (ShipState.takeDamage ⟨100, 100, 80, true, false⟩ 50 =
      (⟨100, 100, 80, true, false⟩, none)) ∧
    (ShipState.barrelRollAnimate ⟨100, 100, 80, true, false⟩ 250 =
      ⟨100, 100, 80, true, false⟩) ∧
    (ShipState.barrelRollAnimate ⟨100, 100, 80, true, false⟩ 500 =
      ⟨100, 100, 80, false, false⟩) ∧
    (ShipState.barrelRoll ⟨100, 100, 19, false, false⟩ =
      ⟨100, 100, 19, false, false⟩) := by
  refine ⟨?_, ?_, ?_, ?_, ?_⟩
  · have h := c5_barrelRoll.2.2.1 ⟨100, 100, 100, false, false⟩ rfl (by norm_num)
    rw [h]; norm_num
  · exact c5_barrelRoll.2.2.2.2.2.1 ⟨100, 100, 80, true, false⟩ 50 rfl
  · exact c5_barrelRoll.2.2.2.1 ⟨100, 100, 80, true, false⟩ 250
      (by norm_num [barrelRollDuration])
  · have h := c5_barrelRoll.2.2.2.2.1 ⟨100, 100, 80, true, false⟩ 500
      (by norm_num [barrelRollDuration])
    simpa using h
  · exact c5_barrelRoll.2.1 ⟨100, 100, 19, false, false⟩ (by norm_num)

/-- Energy never increases past `maxEnergy` in a single ship operation with a
nonnegative time argument: regeneration is clamped at `maxEnergy` and every
other operation only subtracts energy. -/
theorem shipOp_energy_le_max (s : ShipState) (op : ShipOp)
    (h : s.energy ≤ maxEnergy) (hop : op.timeNonneg) :
    (op.apply s).energy ≤ maxEnergy := by
  cases op with
  | update g deltaTime =>
    simp only [ShipOp.apply, ShipState.update]
    split_ifs <;> simp [qmin_eq, min_le_left]
  | shieldDrainTick =>
    simp only [ShipOp.apply, ShipState.shieldDrainTick]
    split_ifs <;> simp [ShipState.deactivateShield] <;> linarith
  | shieldTimeout => simpa [ShipOp.apply, ShipState.deactivateShield] using h
  | barrelRollEnd =>
    simp only [ShipOp.apply, ShipState.barrelRollAnimate]
    split_ifs <;> simpa using h
  | beamDrain dt =>
    simp only [ShipOp.apply, ShipState.beamDrain]
    simp only [ShipOp.timeNonneg] at hop
    have : 0 ≤ 15 * dt := by positivity
    linarith

/-- C3 (amended): over any sequence of ship operations (per-frame updates
with arbitrary gestures and nonnegative delta times, shield drain ticks and
timeouts, barrel-roll ends, beam drains) the ship's energy never exceeds
`maxEnergy`.  Since the conclusion holds for every operation list, it holds
in particular after every prefix of a run, i.e. after every operation.  The
claimed lower bound 0 is refuted by `c3_energy_counterexample`. -/
theorem c3_energy_le_max (s : ShipState) (ops : List ShipOp)
    (h : s.energy ≤ maxEnergy) (hops : ∀ op ∈ ops, op.timeNonneg) :
    (runShipOps s ops).energy ≤ maxEnergy := by
  induction ops generalizing s with
  | nil => simpa [runShipOps] using h
  | cons op rest ih =>
    have h1 : (op.apply s).energy ≤ maxEnergy :=
      shipOp_energy_le_max s op h (hops op (by simp))
    have h2 : ∀ o ∈ rest, ShipOp.timeNonneg o := fun o ho => hops o (by simp [ho])
    simpa [runShipOps] using ih (op.apply s) h1 h2

/-- Witness for C3: a fresh ship run through a boost update, a shield drain
tick and a beam drain stays at or below `maxEnergy`. -/
theorem c3_energy_le_max_witness :
    (runShipOps ShipState.mk0
      [ShipOp.update Gesture.BOOST 16, ShipOp.shieldDrainTick,
        ShipOp.beamDrain 16]).energy ≤ maxEnergy :=
  c3_energy_le_max ShipState.mk0
    [ShipOp.update Gesture.BOOST 16, ShipOp.shieldDrainTick, ShipOp.beamDrain 16]
    (by norm_num [ShipState.mk0, maxEnergy])
    (by intro op hop; fin_cases hop <;> norm_num [ShipOp.timeNonneg])

/-- C3 counterexample: the claim's lower bound fails.  A single per-frame
update with the `BOOST` gesture and delta time 6000 ms (the claim quantifies
over arbitrary delta times) drives a full-energy ship to energy −20: `boost`
subtracts `30 * dt` without any clamp at 0. -/
theorem c3_energy_counterexample :
    (ShipState.mk0.update Gesture.BOOST 6000).energy = -20 ∧
    ¬ (0 ≤ (ShipState.mk0.update Gesture.BOOST 6000).energy) := by
  have h : (ShipState.mk0.update Gesture.BOOST 6000).energy = -20 := by
    norm_num [ShipState.update, ShipState.processGesture, ShipState.boost,
      ShipState.mk0, maxEnergy, maxShield, energyRegen, qmin]
  exact ⟨h, by rw [h]; norm_num⟩

/-- C10: in the wave manager's constructor state (wave 0, no enemies, spawn
queue never loaded) the completion predicate already holds, and a single
`update` call invokes the on-wave-complete callback with wave number 0 —
for every config-generation oracle, delta time and spawn-position oracle. -/
theorem c10_initial_update_fires (cr : ℕ → ℕ → ℚ) (dt : ℚ) (p : Vec3) :
    (WMState.init cr).isWaveComplete = true ∧
    ((WMState.init cr).update dt p).2 = some 0 := by
  constructor
  · simp [WMState.init, WMState.isWaveComplete]
  · simp [WMState.init, WMState.update, WMState.spawnPhase, WMState.removalPhase,
      WMState.isWaveComplete]

/-- A constant all-zero random oracle for concrete wave-manager runs. -/
def constRolls : ℕ → ℕ → ℚ := fun _ _ => 0

/-- A constant all-zero single-stream random oracle. -/
def constRoll : ℕ → ℚ := fun _ => 0

/-- A fixed spawn position for concrete wave-manager runs. -/
def originV : Vec3 := ⟨0, 0, 0⟩

/-- Wave 1's precomputed config under the all-zero oracle: three cowards,
spawn delay 1925, not a boss wave. -/
theorem configLookup_one : configLookup (generateWaveConfigs constRolls) 1 =
    some (WaveConfig.mk 1 [EnemyType.coward, EnemyType.coward, EnemyType.coward]
      1925 false) := by
  rw [configLookup, generateWaveConfigs]
  norm_num [List.getElem?_map, List.getElem?_range, generateNormalWaveEnemies,
    normalTypeFor, constRolls, qmax, List.range_succ]
  rfl

/-- The manager right after `startWave(1)` in a fresh game. -/
def waveOneStarted : WMState :=
  (WMState.init constRolls).startWave (some 1) constRoll

theorem waveOneStarted_eq : waveOneStarted = WMState.mk 1 3
    [] (some [EnemyType.coward, EnemyType.coward, EnemyType.coward]) 1925 1925
    (generateWaveConfigs constRolls) := by
  rw [waveOneStarted, WMState.startWave, WMState.init]
  norm_num [configLookup_one]

/-- A freshly spawned coward (full health, mesh at the spawn position). -/
def cowardFull : EnemyState :=
  EnemyState.mk EnemyType.coward 40 (some (Mesh.mk originV))

/-- The manager after the frame that spawns the first coward (the spawn
clock was preloaded, so a zero-delta frame already spawns). -/
def afterSpawn1 : WMState := (waveOneStarted.update 0 originV).1

theorem afterSpawn1_eq : afterSpawn1 = WMState.mk 1 3
    [cowardFull] (some [EnemyType.coward, EnemyType.coward]) 1925 0
    (generateWaveConfigs constRolls) := by
  rw [afterSpawn1, WMState.update, waveOneStarted_eq]
  norm_num [WMState.spawnPhase, WMState.removalPhase, mkEnemy, initialHealth,
    cowardFull]

/-- The manager after the second spawn frame. -/
def afterSpawn2 : WMState := (afterSpawn1.update 1925 originV).1

theorem afterSpawn2_eq : afterSpawn2 = WMState.mk 1 3
    [cowardFull, cowardFull] (some [EnemyType.coward]) 1925 0
    (generateWaveConfigs constRolls) := by
  rw [afterSpawn2, WMState.update, afterSpawn1_eq]
  norm_num [WMState.spawnPhase, WMState.removalPhase, mkEnemy, initialHealth,
    cowardFull]

/-- The manager after the third spawn frame: the spawn queue is now empty. -/
def afterSpawn3 : WMState := (afterSpawn2.update 1925 originV).1

theorem afterSpawn3_eq : afterSpawn3 = WMState.mk 1 3
    [cowardFull, cowardFull, cowardFull] (some []) 1925 0
    (generateWaveConfigs constRolls) := by
  rw [afterSpawn3, WMState.update, afterSpawn2_eq]
  norm_num [WMState.spawnPhase, WMState.removalPhase, mkEnemy, initialHealth,
    cowardFull]

/-- A coward after taking 1000 damage through the `getEnemies` wrapper. -/
def cowardDead : EnemyState :=
  EnemyState.mk EnemyType.coward (-960) (some (Mesh.mk originV))

/-- The manager after the weapons hit all three spawned cowards for 1000
damage in one frame. -/
def waveOneCleared : WMState := afterSpawn3.hitAll 1000

theorem waveOneCleared_eq : waveOneCleared = WMState.mk 1 3
    [cowardDead, cowardDead, cowardDead] (some []) 1925 0
    (generateWaveConfigs constRolls) := by
  rw [waveOneCleared, WMState.hitAll, afterSpawn3_eq]
  norm_num [EnemyState.takeDamage, cowardFull, cowardDead]

/-- C1 counterexample: in a concrete reachable run (wave 1 started, its
three enemies spawned and then killed), the on-wave-complete callback is not
invoked while enemies remain, but once the completion condition holds it is
invoked on the next `update` AND AGAIN on the update after that, with no
intervening `startWave` call — refuting "invoked exactly once". -/
theorem c1_waveComplete_counterexample :
    (waveOneStarted.update 0 originV).2 = none ∧
    (waveOneCleared.update 16 originV).2 = some 1 ∧
    ((waveOneCleared.update 16 originV).1.update 16 originV).2 = some 1 := by
  refine ⟨?_, ?_, ?_⟩
  · rw [WMState.update, waveOneStarted_eq]
    norm_num [WMState.spawnPhase, WMState.removalPhase, WMState.isWaveComplete,
      mkEnemy, initialHealth]
  · rw [WMState.update, waveOneCleared_eq]
    norm_num [WMState.spawnPhase, WMState.removalPhase, WMState.isWaveComplete,
      cowardDead]
  · rw [WMState.update, WMState.update, waveOneCleared_eq]
    norm_num [WMState.spawnPhase, WMState.removalPhase, WMState.isWaveComplete,
      cowardDead]

/-- C1 (amended): the on-wave-complete callback is invoked on exactly the
`update` calls whose post-state satisfies the completion predicate (so never
before the spawn queue is empty and the remaining count has reached 0) — and
the completed state is absorbing, so the callback fires again on EVERY
subsequent `update` while no new `startWave` intervenes; the manager itself
does not debounce. -/
theorem c1_waveComplete_signaling :
    (∀ (s : WMState) (dt : ℚ) (p : Vec3),
      (s.update dt p).1.isWaveComplete = false → (s.update dt p).2 = none) ∧
    (∀ (s : WMState) (dt : ℚ) (p : Vec3), s.isWaveComplete = true →
      (s.update dt p).2 = some s.currentWave ∧
      (s.update dt p).1.isWaveComplete = true) := by
  constructor
  · intro s dt p h
    simp only [WMState.update] at h ⊢
    simp [h]
  · intro s dt p hc
    have hq : s.enemiesToSpawn = none ∨ s.enemiesToSpawn = some [] := by
      rcases h : s.enemiesToSpawn with _ | q
      · exact Or.inl rfl
      · right
        simp only [WMState.isWaveComplete, h, Bool.and_eq_true] at hc
        rcases q with _ | ⟨a, q⟩
        · rfl
        · simp at hc
    have hr : s.enemiesRemaining ≤ 0 := by
      simp only [WMState.isWaveComplete, Bool.and_eq_true, decide_eq_true_eq] at hc
      exact hc.1
    have hsp : s.spawnPhase dt p = s := by
      rcases hq with h | h <;> simp [WMState.spawnPhase, h]
    have hrp : ∀ t : WMState, t.enemiesRemaining ≤ 0 →
        t.removalPhase.isWaveComplete = t.isWaveComplete := by
      intro t ht
      simp only [WMState.removalPhase, WMState.isWaveComplete]
      have hsub : t.enemiesRemaining -
          (t.activeEnemies.filter fun e => decide (e.health ≤ 0)).length ≤ 0 := by
        have hlen : (0 : ℤ) ≤
            (t.activeEnemies.filter fun e => decide (e.health ≤ 0)).length := by
          positivity
        omega
      simp [decide_eq_true_eq, hsub, ht]
    have hcomp : (s.update dt p).1.isWaveComplete = true := by
      simp only [WMState.update, hsp]
      rw [hrp s hr]
      exact hc
    constructor
    · simp only [WMState.update, hsp] at hcomp ⊢
      simp only [hcomp, if_true]
      simp [WMState.removalPhase]
    · exact hcomp


/-- Witness for C1's theorem: a concrete completed state (wave 3, nothing
left to spawn, no enemies alive) fires the callback on an update and remains
complete. -/
theorem c1_waveComplete_signaling_witness :
    ((WMState.mk 3 0 [] (some []) 500 0 []).update 16 originV).2 = some 3 ∧
    ((WMState.mk 3 0 [] (some []) 500 0 []).update 16 originV).1.isWaveComplete
      = true :=
  c1_waveComplete_signaling.2 (WMState.mk 3 0 [] (some []) 500 0 []) 16 originV
    (by decide)

/-- Every generated wave-config table has exactly 20 entries. -/
theorem generateWaveConfigs_length (cr : ℕ → ℕ → ℚ) :
    (generateWaveConfigs cr).length = 20 := by
  simp [generateWaveConfigs]

/-- The normal-wave draw produces exactly `count` enemies. -/
theorem generateNormalWaveEnemies_length (wave count : ℕ) (rolls : ℕ → ℚ) :
    (generateNormalWaveEnemies wave count rolls).length = count := by
  simp [generateNormalWaveEnemies]

/-- For a wave number beyond the 20-entry config table, `startWave` falls
back to the synthesized endless-mode config: the normal-wave draw with enemy
count `5 + wave` and spawn delay 500 (the spawn clock preloaded to 500). -/
theorem startWave_beyond_table (s : WMState) (n : ℕ) (rolls : ℕ → ℚ)
    (hlen : s.waveConfigs.length ≤ 20) (hn : 20 < n) :
    s.startWave (some n) rolls =
      { s with
        currentWave := n
        enemiesRemaining := ((5 + n : ℕ) : ℤ)
        enemiesToSpawn := some (generateNormalWaveEnemies n (5 + n) rolls)
        spawnDelay := 500
        timeSinceLastSpawn := 500 } := by
  have hnone : configLookup s.waveConfigs n = none := by
    rw [configLookup]
    have : s.waveConfigs.length ≤ n - 1 := by omega
    simp [List.get?_eq_none.mpr this]
    omega
  simp only [WMState.startWave, hnone]
  simp [generateNormalWaveEnemies_length]

/-- C8 counterexample: the claim's enemy-count formula `3 + floor(n × 0.8)`
gives 19 for wave 21, but `startWave(21)` on a fresh manager loads 26
enemies (the endless branch uses `5 + currentWave`, not the normal-wave
formula).  The spawn delay is the claimed 500. -/
theorem c8_endless_counterexample :
    (3 + ⌊(21 : ℚ) * 0.8⌋ : ℤ) = 19 ∧
    ((WMState.init constRolls).startWave (some 21) constRoll).enemiesRemaining
      = 26 ∧
    ((WMState.init constRolls).startWave (some 21) constRoll).enemiesRemaining
      ≠ 19 ∧
    ((WMState.init constRolls).startWave (some 21) constRoll).spawnDelay
      = 500 := by
  have hfloor : (⌊(21 : ℚ) * 0.8⌋ : ℤ) = 16 := by
    rw [Int.floor_eq_iff] <;> norm_num
  have h := startWave_beyond_table (WMState.init constRolls) 21 constRoll
    (by rw [WMState.init]; simp [generateWaveConfigs_length]) (by norm_num)
  set_option linter.unnecessarySeqFocus false in
  refine ⟨by rw [hfloor]; norm_num, ?_, ?_, ?_⟩ <;> rw [h] <;> norm_num

/-- C8 (amended): for every wave number n > 20, `startWave(n)` synthesizes a
configuration on demand instead of failing: the spawn list is drawn with the
normal-wave type-probability bands, the spawn delay is the fixed minimal
500 ms — but the enemy count is `5 + n`, not the precomputed-table formula
`3 + floor(n × 0.8)`. -/
theorem c8_endless_wave (cr : ℕ → ℕ → ℚ) (s : WMState) (n : ℕ)
    (rolls : ℕ → ℚ) (hcfg : s.waveConfigs = generateWaveConfigs cr)
    (hn : 20 < n) :
    s.startWave (some n) rolls =
      { s with
        currentWave := n
        enemiesRemaining := ((5 + n : ℕ) : ℤ)
        enemiesToSpawn := some (generateNormalWaveEnemies n (5 + n) rolls)
        spawnDelay := 500
        timeSinceLastSpawn := 500 } :=
  startWave_beyond_table s n rolls
    (by rw [hcfg, generateWaveConfigs_length]) hn

/-- Witness for C8's theorem at wave 21 on a fresh manager. -/
theorem c8_endless_wave_witness :
    (WMState.init constRolls).startWave (some 21) constRoll =
      { WMState.init constRolls with
        currentWave := 21
        enemiesRemaining := ((5 + 21 : ℕ) : ℤ)
        enemiesToSpawn := some (generateNormalWaveEnemies 21 (5 + 21) constRoll)
        spawnDelay := 500
        timeSinceLastSpawn := 500 } :=
  c8_endless_wave constRolls (WMState.init constRolls) 21 constRoll rfl
    (by norm_num)

/-- A matched two-hand gesture branch never yields `IDLE`. -/
theorem twoHandGesture_ne_idle {l r : HandData} {g : Gesture}
    (h : twoHandGesture l r = some g) : g ≠ Gesture.IDLE := by
  rw [twoHandGesture] at h
  split_ifs at h
  all_goals (injection h with h; subst h; decide)

/-- A matched right-hand gesture branch never yields `IDLE`. -/
theorem rightHandGesture_ne_idle {r : HandData} {g : Gesture}
    (h : rightHandGesture r = some g) : g ≠ Gesture.IDLE := by
  rw [rightHandGesture] at h
  split_ifs at h
  all_goals (injection h with h; subst h; decide)

/-- A matched left-hand gesture branch never yields `IDLE`. -/
theorem leftHandGesture_ne_idle {l : HandData} {g : Gesture}
    (h : leftHandGesture l = some g) : g ≠ Gesture.IDLE := by
  rw [leftHandGesture] at h
  split_ifs at h
  all_goals (injection h with h; subst h; decide)

/-- C2 (amended): the gesture-change notification is emitted on exactly the
frames whose computed gesture is `IDLE` and differs from the previous
frame's gesture.  Frames computing any non-`IDLE` gesture return before the
notification check and never emit, even when the gesture changed. -/
theorem c2_gestureChange_only_on_idle
    (leftHand rightHand : Option HandData) (prev : Gesture) :
    (detectGesture leftHand rightHand prev).2 = true ↔
    ((detectGesture leftHand rightHand prev).1 = Gesture.IDLE ∧
      prev ≠ Gesture.IDLE) := by
  rcases leftHand with _ | l <;> rcases rightHand with _ | r
  · have h : detectGesture none none prev =
        (Gesture.IDLE, decide (Gesture.IDLE ≠ prev)) := rfl
    rw [h]; simp [ne_comm]
  · have h : detectGesture none (some r) prev =
        (match rightHandGesture r with
          | some g => (g, false)
          | none => (Gesture.IDLE, decide (Gesture.IDLE ≠ prev))) := rfl
    rcases hr : rightHandGesture r with _ | g
    · rw [h, hr]; simp [ne_comm]
    · rw [h, hr]; simp [rightHandGesture_ne_idle hr]
  · have h : detectGesture (some l) none prev =
        (match leftHandGesture l with
          | some g => (g, false)
          | none => (Gesture.IDLE, decide (Gesture.IDLE ≠ prev))) := rfl
    rcases hl : leftHandGesture l with _ | g
    · rw [h, hl]; simp [ne_comm]
    · rw [h, hl]; simp [leftHandGesture_ne_idle hl]
  · have h : detectGesture (some l) (some r) prev =
        (match twoHandGesture l r with
          | some g => (g, false)
          | none =>
            match rightHandGesture r with
            | some g => (g, false)
            | none =>
              match leftHandGesture l with
              | some g => (g, false)
              | none => (Gesture.IDLE, decide (Gesture.IDLE ≠ prev))) := rfl
    rcases h2 : twoHandGesture l r with _ | g
    · rcases hr : rightHandGesture r with _ | g
      · rcases hl : leftHandGesture l with _ | g
        · rw [h, h2, hr, hl]; simp [ne_comm]
        · rw [h, h2, hr, hl]; simp [leftHandGesture_ne_idle hl]
      · rw [h, h2, hr]; simp [rightHandGesture_ne_idle hr]
    · rw [h, h2]; simp [twoHandGesture_ne_idle h2]

/-- A right hand whose only feature is an open palm. -/
def openPalmRight : HandData :=
  { palmCenterX := 0.5, palmCenterY := 0.5, indexTipX := 0.5, indexTipY := 0.5
    isPinching := false, isFist := false, isOpenPalm := true, isPointing := false }

/-- C2 counterexample: with the previous gesture `IDLE` and an open right
palm, the computed gesture changes to `THRUST`, yet no gesture-change
notification is emitted — the `THRUST` branch returns before the check. -/
theorem c2_gestureChange_counterexample :
    detectGesture none (some openPalmRight) Gesture.IDLE =
      (Gesture.THRUST, false) ∧
    Gesture.THRUST ≠ Gesture.IDLE := by
  exact ⟨rfl, by decide⟩

/-- C6 (amended): `firePrimary` is a no-op returning failure when the
selected weapon's cooldown gate blocks or energy is below its cost;
otherwise it deducts exactly the weapon's energy cost, stamps the weapon's
cooldown clock with `now`, returns success, and spawns the appropriate
projectile for the railgun and harpoon — while for the selected laser the
`switch` has no case, so success is returned and energy deducted with no
projectile spawned and the beam left inactive. -/
theorem c6_firePrimary_contract :
    (∀ (w : WeaponsState) (energy now : ℚ) (p f : Vec3),
      cooldownBlocked w now = true →
        firePrimary w energy now p f = (w, energy, false)) ∧
    (∀ (w : WeaponsState) (energy now : ℚ) (p f : Vec3),
      cooldownBlocked w now = false →
      energy < energyCostOf w.currentWeapon →
        firePrimary w energy now p f = (w, energy, false)) ∧
    (∀ (w : WeaponsState) (energy now : ℚ) (p f : Vec3),
      cooldownBlocked w now = false →
      ¬ energy < energyCostOf w.currentWeapon →
        (firePrimary w energy now p f).2.2 = true ∧
        (firePrimary w energy now p f).2.1 = energy - energyCostOf w.currentWeapon ∧
        (firePrimary w energy now p f).1.lastFiredOf w.currentWeapon = some now ∧
        (firePrimary w energy now p f).1.projectiles =
          (match w.currentWeapon with
            | WeaponKind.railgun => w.projectiles ++ [mkRailgunShot now p f]
            | _ => w.projectiles) ∧
        (firePrimary w energy now p f).1.harpoons =
          (match w.currentWeapon with
            | WeaponKind.harpoon => w.harpoons ++ [mkHarpoon now p f]
            | _ => w.harpoons) ∧
        (firePrimary w energy now p f).1.laserActive = w.laserActive) := by
  refine ⟨?_, ?_, ?_⟩
  · intro w energy now p f hb
    simp [firePrimary, hb]
  · intro w energy now p f hb he
    simp [firePrimary, hb, he]
  · intro w energy now p f hb he
    rcases hcw : w.currentWeapon with _ | _ | _ <;> rw [hcw] at he <;>
      simp [firePrimary, hb, he, hcw, WeaponsState.setLastFired,
        WeaponsState.lastFiredOf]

/-- Witness for C6's theorem: a fresh weapon system firing the railgun at
`now = 1000` with full energy succeeds, pays 5 energy, stamps the clock and
appends one railgun projectile. -/
theorem c6_firePrimary_contract_witness :
    (firePrimary WeaponsState.mk0 100 1000 ⟨0, 0, 0⟩ ⟨0, 0, -1⟩).2.2 = true ∧
    (firePrimary WeaponsState.mk0 100 1000 ⟨0, 0, 0⟩ ⟨0, 0, -1⟩).2.1 =
      100 - energyCostOf WeaponsState.mk0.currentWeapon ∧
    (firePrimary WeaponsState.mk0 100 1000 ⟨0, 0, 0⟩ ⟨0, 0, -1⟩).1.lastFiredOf
      WeaponsState.mk0.currentWeapon = some 1000 ∧
    (firePrimary WeaponsState.mk0 100 1000 ⟨0, 0, 0⟩ ⟨0, 0, -1⟩).1.projectiles =
      (match WeaponsState.mk0.currentWeapon with
        | WeaponKind.railgun =>
          WeaponsState.mk0.projectiles ++ [mkRailgunShot 1000 ⟨0, 0, 0⟩ ⟨0, 0, -1⟩]
        | _ => WeaponsState.mk0.projectiles) ∧
    (firePrimary WeaponsState.mk0 100 1000 ⟨0, 0, 0⟩ ⟨0, 0, -1⟩).1.harpoons =
      (match WeaponsState.mk0.currentWeapon with
        | WeaponKind.harpoon =>
          WeaponsState.mk0.harpoons ++ [mkHarpoon 1000 ⟨0, 0, 0⟩ ⟨0, 0, -1⟩]
        | _ => WeaponsState.mk0.harpoons) ∧
    (firePrimary WeaponsState.mk0 100 1000 ⟨0, 0, 0⟩ ⟨0, 0, -1⟩).1.laserActive =
      WeaponsState.mk0.laserActive :=
  c6_firePrimary_contract.2.2 WeaponsState.mk0 100 1000 ⟨0, 0, 0⟩ ⟨0, 0, -1⟩
    (by norm_num [cooldownBlocked, WeaponsState.mk0, WeaponsState.lastFiredOf,
      cooldownOf])
    (by norm_num [WeaponsState.mk0, energyCostOf])

/-- C6 counterexample: with the laser selected (reachable via
`selectWeapon('laser')` on the keyboard), a `firePrimary` call with full
energy passes both gates, deducts the laser's 15 energy, stamps the laser's
clock and returns success — yet spawns nothing and does not activate the
beam, so the success path is not "spawn the appropriate projectile" for
every selected weapon. -/
theorem c6_firePrimary_counterexample :
    firePrimary { WeaponsState.mk0 with currentWeapon := WeaponKind.laser }
        100 1000 ⟨0, 0, 0⟩ ⟨0, 0, -1⟩ =
      ({ WeaponsState.mk0 with
          currentWeapon := WeaponKind.laser, laserLastFired := some 1000 },
        85, true) ∧
    (firePrimary { WeaponsState.mk0 with currentWeapon := WeaponKind.laser }
        100 1000 ⟨0, 0, 0⟩ ⟨0, 0, -1⟩).1.projectiles = [] ∧
    (firePrimary { WeaponsState.mk0 with currentWeapon := WeaponKind.laser }
        100 1000 ⟨0, 0, 0⟩ ⟨0, 0, -1⟩).1.harpoons = [] ∧
    (firePrimary { WeaponsState.mk0 with currentWeapon := WeaponKind.laser }
        100 1000 ⟨0, 0, 0⟩ ⟨0, 0, -1⟩).1.laserActive = false := by
  refine ⟨?_, rfl, rfl, rfl⟩
  have h : firePrimary { WeaponsState.mk0 with currentWeapon := WeaponKind.laser }
      100 1000 ⟨0, 0, 0⟩ ⟨0, 0, -1⟩ =
      ({ WeaponsState.mk0 with
          currentWeapon := WeaponKind.laser, laserLastFired := some 1000 },
        100 - 15, true) := rfl
  rw [h]
  norm_num

/-- C7 (amended): `Enemy.die` never clears the enemy's mesh reference, and
`updateHarpoons` guards an attached harpoon only on `attachedTo` and its
`mesh` being non-null — a check that therefore still passes after the enemy
is killed and removed from the roster.  The attached branch is independent
of the current enemy list: whatever roster is passed, the harpoon stays
attached, copies the referenced (possibly dead) enemy's mesh position and
pulls that mesh toward the ship; the tether is only ever removed by its own
lifetime expiry. -/
theorem c7_harpoon_stale_reference :
    (∀ e : EnemyState, e.die.mesh = e.mesh) ∧
    (∀ (hp : Harpoon) (dt now : ℚ) (enemies : List EnemyRef)
        (r : EnemyRef) (m : Mesh),
      hp.attached = true → hp.attachedTo = some r → r.mesh = some m →
      ¬ now - hp.created > hp.lifetime →
        updateHarpoonOne hp dt now enemies =
          some ({ hp with position := m.position }, true)) ∧
    (∀ (hp : Harpoon) (dt now : ℚ) (enemies : List EnemyRef),
      now - hp.created > hp.lifetime →
        updateHarpoonOne hp dt now enemies = none) := by
  refine ⟨fun e => rfl, ?_, ?_⟩
  · intro hp dt now enemies r m ha hr hm hlt
    simp [updateHarpoonOne, hlt, ha, hr, hm]
  · intro hp dt now enemies hlt
    simp [updateHarpoonOne, hlt]

/-- The `getEnemies` wrapper of an enemy that was killed and removed from the
roster this frame: `die()` left its mesh reference set. -/
def deadEnemyRef : EnemyRef := { mesh := some ⟨⟨5, 5, 5⟩⟩, hitRadius := 30 }

/-- A harpoon that attached to `deadEnemyRef`'s enemy before it died. -/
def staleHarpoon : Harpoon :=
  { position := ⟨0, 0, 0⟩, velocity := ⟨0, 0, -800⟩, damage := 10
    lifetime := 5000, created := 0, attached := true
    attachedTo := some deadEnemyRef }

/-- C7 counterexample: on the next frame after the attached enemy was killed
and removed (the roster passed in is empty), the harpoon update does NOT
detach or expire the tether — it stays attached, moves to the dead enemy's
mesh position and pulls that mesh (the `true` flag records the use of the
dead enemy's state).  The stale reference is never detected because `die()`
leaves `mesh` non-null. -/
theorem c7_harpoon_counterexample :
    updateHarpoonOne staleHarpoon 16 16 [] =
      some ({ staleHarpoon with position := ⟨5, 5, 5⟩ }, true) ∧
    (staleHarpoon.attachedTo = some deadEnemyRef ∧ deadEnemyRef.mesh ≠ none) := by
  constructor
  · norm_num [updateHarpoonOne, staleHarpoon, deadEnemyRef]
  · exact ⟨rfl, by simp [deadEnemyRef]⟩

/-- Witness for C7's theorem: the stale-harpoon scenario instantiates the
attached-branch conjunct, and a long-expired harpoon instantiates the expiry
conjunct. -/
theorem c7_harpoon_stale_reference_witness :
    updateHarpoonOne staleHarpoon 16 16 [deadEnemyRef] =
      some ({ staleHarpoon with position := ⟨5, 5, 5⟩ }, true) ∧
    updateHarpoonOne staleHarpoon 16 6000 [] = none :=
  ⟨c7_harpoon_stale_reference.2.1 staleHarpoon 16 16 [deadEnemyRef]
      deadEnemyRef ⟨⟨5, 5, 5⟩⟩ rfl rfl rfl
      (by norm_num [staleHarpoon]),
    c7_harpoon_stale_reference.2.2 staleHarpoon 16 6000 []
      (by norm_num [staleHarpoon])⟩

/-- b lies between a and the target t: stepping from a to b moves toward t
without overshooting it, whichever side of t the point a is on. -/
def movesToward (a b t : ℚ) : Prop :=
  (a ≤ t → a ≤ b ∧ b ≤ t) ∧ (t ≤ a → t ≤ b ∧ b ≤ a)

/-- One exponential-smoothing step with the 0.5 blend factor followed by the
unit clamp stays inside the unit interval and moves toward the raw target
without overshooting, from any clamped starting point. -/
theorem clamp_blend_between (x t : ℚ) (h0 : 0 ≤ x) (h1 : x ≤ 1) :
    (0 ≤ clamp01 (x + (t - x) * smoothingFactor) ∧
      clamp01 (x + (t - x) * smoothingFactor) ≤ 1) ∧
    movesToward x (clamp01 (x + (t - x) * smoothingFactor)) t := by
  unfold clamp01 qmax qmin smoothingFactor movesToward
  norm_num
  split_ifs with h2 h3 h4 <;>
    refine ⟨⟨by linarith, by linarith⟩, fun h => ⟨by linarith, by linarith⟩,
      fun h => ⟨by linarith, by linarith⟩⟩

/-- C9: with a fixed right hand held over consecutive frames (hence a fixed
raw aim target), the smoothed aim position after every frame stays inside
the unit square, and each further frame moves each coordinate monotonically
toward the raw target without overshooting it. -/
theorem c9_aim_smoothing (h : HandData) (s : AimState) (n : ℕ)
    (hx0 : 0 ≤ s.smoothX) (hx1 : s.smoothX ≤ 1)
    (hy0 : 0 ≤ s.smoothY) (hy1 : s.smoothY ≤ 1) :
    (0 ≤ ((updateAimPosition (some h))^[n] s).smoothX ∧
      ((updateAimPosition (some h))^[n] s).smoothX ≤ 1) ∧
    (0 ≤ ((updateAimPosition (some h))^[n] s).smoothY ∧
      ((updateAimPosition (some h))^[n] s).smoothY ≤ 1) ∧
    movesToward ((updateAimPosition (some h))^[n] s).smoothX
      ((updateAimPosition (some h))^[n + 1] s).smoothX (aimTarget h).1 ∧
    movesToward ((updateAimPosition (some h))^[n] s).smoothY
      ((updateAimPosition (some h))^[n + 1] s).smoothY (aimTarget h).2 := by
  have hstep : ∀ st : AimState,
      (updateAimPosition (some h) st).smoothX =
        clamp01 (st.smoothX + ((aimTarget h).1 - st.smoothX) * smoothingFactor) ∧
      (updateAimPosition (some h) st).smoothY =
        clamp01 (st.smoothY + ((aimTarget h).2 - st.smoothY) * smoothingFactor) := by
    intro st
    constructor <;> rfl
  have range : ∀ k : ℕ,
      (0 ≤ ((updateAimPosition (some h))^[k] s).smoothX ∧
        ((updateAimPosition (some h))^[k] s).smoothX ≤ 1) ∧
      (0 ≤ ((updateAimPosition (some h))^[k] s).smoothY ∧
        ((updateAimPosition (some h))^[k] s).smoothY ≤ 1) := by
    intro k
    induction k with
    | zero => exact ⟨⟨hx0, hx1⟩, hy0, hy1⟩
    | succ k ih =>
      rw [Function.iterate_succ_apply']
      constructor
      · rw [(hstep _).1]
        exact (clamp_blend_between _ _ ih.1.1 ih.1.2).1
      · rw [(hstep _).2]
        exact (clamp_blend_between _ _ ih.2.1 ih.2.2).1
  refine ⟨(range n).1, (range n).2, ?_, ?_⟩
  · rw [Function.iterate_succ_apply', (hstep _).1]
    exact (clamp_blend_between _ _ (range n).1.1 (range n).1.2).2
  · rw [Function.iterate_succ_apply', (hstep _).2]
    exact (clamp_blend_between _ _ (range n).2.1 (range n).2.2).2

/-- Witness for C9 at a concrete hand, start state and frame index. -/
theorem c9_aim_smoothing_witness :
    (0 ≤ ((updateAimPosition (some openPalmRight))^[1]
        (AimState.mk 0 0 (1/4) (3/4))).smoothX ∧
      ((updateAimPosition (some openPalmRight))^[1]
        (AimState.mk 0 0 (1/4) (3/4))).smoothX ≤ 1) ∧
    (0 ≤ ((updateAimPosition (some openPalmRight))^[1]
        (AimState.mk 0 0 (1/4) (3/4))).smoothY ∧
      ((updateAimPosition (some openPalmRight))^[1]
        (AimState.mk 0 0 (1/4) (3/4))).smoothY ≤ 1) ∧
    movesToward ((updateAimPosition (some openPalmRight))^[1]
        (AimState.mk 0 0 (1/4) (3/4))).smoothX
      ((updateAimPosition (some openPalmRight))^[1 + 1]
        (AimState.mk 0 0 (1/4) (3/4))).smoothX (aimTarget openPalmRight).1 ∧
    movesToward ((updateAimPosition (some openPalmRight))^[1]
        (AimState.mk 0 0 (1/4) (3/4))).smoothY
      ((updateAimPosition (some openPalmRight))^[1 + 1]
        (AimState.mk 0 0 (1/4) (3/4))).smoothY (aimTarget openPalmRight).2 :=
  c9_aim_smoothing openPalmRight (AimState.mk 0 0 (1/4) (3/4)) 1
    (by norm_num) (by norm_num) (by norm_num) (by norm_num)

end Aethelgard
